import Mathlib

/-!
Verification of the fraud-scoring core of `app/utils/fraud.py`
(Ratio Engine `_ratios`, safe division `_div`, rule scorers
`beneish_score` and `piotroski_score`, dispatcher `predict`).

Embedding conventions:
* Python floats are modelled by `PyFloat`: a finite value is an exact
  rational (IEEE rounding and overflow are abstracted away; all constants
  in the claims are treated exactly), plus signed infinity and NaN.
* Statement line items arriving from the JSON provider are finite, so the
  Ratio Engine works over `ℚ`; a Python float division whose denominator
  is zero raises `ZeroDivisionError`, which we model with `Except`.
* A missing line item is `none` and is read back as `0` by `item`,
  mirroring `float(row.get(k, 0))`.
-/

/-- Exceptions the embedded code can raise. -/
inductive PyErr where
  | zeroDivisionError
  | valueError (msg : String)
  deriving DecidableEq

/-- Model of a Python float: finite (exact rational), signed infinity
(`pos = true` for positive infinity), or NaN. -/
inductive PyFloat where
  | fin (val : ℚ)
  | inf (pos : Bool)
  | nan
  deriving DecidableEq

/-- Python `d == 0` on a float: NaN and infinities compare unequal to 0. -/
def PyFloat.eqZero : PyFloat → Bool
  | .fin q => q == 0
  | _ => false

/-- Model of `np.isnan`. -/
def PyFloat.isnan : PyFloat → Bool
  | .nan => true
  | _ => false

/-- Python float division `n / d`. Raises `ZeroDivisionError` when `d` is
(finite) zero; any NaN operand yields NaN; a finite value divided by an
infinity yields zero (signed zeros are collapsed); an infinity divided by
a finite nonzero value keeps or flips its sign; infinity over infinity is
NaN. -/
def pyDivF (n d : PyFloat) : Except PyErr PyFloat :=
  match d with
  | .fin q =>
      if q = 0 then .error .zeroDivisionError
      else
        match n with
        | .fin a => .ok (.fin (a / q))
        | .inf s => .ok (.inf (s == decide (0 < q)))
        | .nan => .ok .nan
  | .inf _ =>
      match n with
      | .fin _ => .ok (.fin 0)
      | .inf _ => .ok .nan
      | .nan => .ok .nan
  | .nan => .ok .nan

/-- Embedding of `_div(n, d, fallback)` from `app/utils/fraud.py`:
return the fallback if `d == 0 or np.isnan(d)`, otherwise attempt `n / d`,
turning any exception into the fallback. -/
def _div (n d fallback : PyFloat) : PyFloat :=
  if d.eqZero || d.isnan then fallback
  else
    match pyDivF n d with
    | .ok v => v
    | .error _ => fallback

/-- Restriction of `_div` to finite operands, as used by the Ratio Engine
(all its arguments are built from finite line items): the `np.isnan`
test is vacuous and the guarded division cannot raise. -/
def _divQ (n d fallback : ℚ) : ℚ :=
  if d = 0 then fallback else n / d

/-- Python float division on finite operands, as it occurs in the
argument expressions of `_ratios` (for example `rectC / saleC`): raises
`ZeroDivisionError` on a zero denominator, before `_div` is ever entered. -/
def pyDiv (n d : ℚ) : Except PyErr ℚ :=
  if d = 0 then .error .zeroDivisionError else .ok (n / d)

/-- One fiscal year of statement data; `none` models a line item missing
from the provider row. -/
structure FinancialPeriod where
  revenue : Option ℚ
  costOfRevenue : Option ℚ
  netReceivables : Option ℚ
  totalCurrentAssets : Option ℚ
  propertyPlantEquipmentNet : Option ℚ
  totalAssets : Option ℚ
  depreciationAndAmortization : Option ℚ
  netIncome : Option ℚ
  totalLiabilities : Option ℚ
  totalCurrentLiabilities : Option ℚ
  operatingCashFlow : Option ℚ
  weightedAverageShsOut : Option ℚ
  ebit : Option ℚ
  deriving DecidableEq

/-- Lookup with default, mirroring `g = lambda row, k: float(row.get(k, 0))`. -/
def item (v : Option ℚ) : ℚ := v.getD 0

/-- The two most recent fiscal years: `cur` is `df2.iloc[-1]`, `prior` is
`df2.iloc[-2]`. -/
structure PeriodPair where
  cur : FinancialPeriod
  prior : FinancialPeriod
  deriving DecidableEq

/-- The fixed-schema feature vector produced by `_ratios`, field names as
in the source dict literal. -/
structure FeatureVector where
  DSRI : ℚ
  GMI : ℚ
  AQI : ℚ
  SGI : ℚ
  DEPI : ℚ
  SGAI : ℚ
  LVGI : ℚ
  TATA : ℚ
  leverage : ℚ
  profitability : ℚ
  liquidity : ℚ
  EBIT_to_assets : ℚ
  soft_asset_ratio : ℚ
  ROA : ℚ
  Prev_ROA : ℚ
  CFO : ℚ
  GrossMargin : ℚ
  Prev_GM : ℚ
  AssetTurn : ℚ
  Prev_AT : ℚ
  CurrRatio : ℚ
  Prev_CR : ℚ
  Shares : ℚ
  Prev_Shares : ℚ
  Prev_leverage : ℚ
  deriving DecidableEq

/-- Embedding of `_ratios(df2)`. The divisions appearing inside the
argument expressions of the `_div` calls (for example `rectC / saleC` in
the DSRI entry) are evaluated by Python before `_div` runs, so a zero
denominator there raises `ZeroDivisionError` out of `_ratios` itself;
these pre-divisions are the `pyDiv` binds below, in source evaluation
order. The `_div` calls themselves are total (`_divQ`). -/
def _ratios (df2 : PeriodPair) : Except PyErr FeatureVector := do
  let c := df2.cur
  let p := df2.prior
  let rectC := item c.netReceivables
  let rectP := item p.netReceivables
  let saleC := item c.revenue
  let saleP := item p.revenue
  let cogsC := item c.costOfRevenue
  let cogsP := item p.costOfRevenue
  let actC := item c.totalCurrentAssets
  let actP := item p.totalCurrentAssets
  let ppeC := item c.propertyPlantEquipmentNet
  let ppeP := item p.propertyPlantEquipmentNet
  let atC := item c.totalAssets
  let atP := item p.totalAssets
  let dpC := item c.depreciationAndAmortization
  let dpP := item p.depreciationAndAmortization
  let niC := item c.netIncome
  let niP := item p.netIncome
  let ltC := item c.totalLiabilities
  let ltP := item p.totalLiabilities
  let lctC := item c.totalCurrentLiabilities
  let ebitC := match c.ebit with
    | some v => v
    | none => niC
  let dsriN ← pyDiv rectC saleC
  let dsriD ← pyDiv rectP saleP
  let gmiN ← pyDiv (saleP - cogsP) saleP
  let gmiD ← pyDiv (saleC - cogsC) saleC
  let aqiN ← pyDiv (actC + ppeC) atC
  let aqiD ← pyDiv (actP + ppeP) atP
  let depiN ← pyDiv dpP (dpP + ppeP)
  let depiD ← pyDiv dpC (dpC + ppeC)
  let sgaiN ← pyDiv (saleC - cogsC - niC) saleC
  let sgaiD ← pyDiv (saleP - cogsP - niP) saleP
  let lvgiN ← pyDiv ltC atC
  let lvgiD ← pyDiv ltP atP
  return {
    DSRI := _divQ dsriN dsriD 0
    GMI := _divQ gmiN gmiD 0
    AQI := _divQ (1 - aqiN) (1 - aqiD) 0
    SGI := _divQ saleC saleP 0
    DEPI := _divQ depiN depiD 0
    SGAI := _divQ sgaiN sgaiD 0
    LVGI := _divQ lvgiN lvgiD 0
    TATA := _divQ (actC - lctC - dpC) atC 0
    leverage := _divQ ltC atC 0
    profitability := _divQ niC atC 0
    liquidity := _divQ actC lctC 0
    EBIT_to_assets := _divQ ebitC atC 0
    soft_asset_ratio := _divQ (actC - ppeC) atC 0
    ROA := _divQ niC atC 0
    Prev_ROA := _divQ niP atP 0
    CFO := _divQ (item c.operatingCashFlow) atC 0
    GrossMargin := _divQ (saleC - cogsC) saleC 0
    Prev_GM := _divQ (saleP - cogsP) saleP 0
    AssetTurn := _divQ saleC atC 0
    Prev_AT := _divQ saleP atP 0
    CurrRatio := _divQ actC lctC 0
    Prev_CR := _divQ actP (item p.totalCurrentLiabilities) 0
    Shares := item c.weightedAverageShsOut
    Prev_Shares := item p.weightedAverageShsOut
    Prev_leverage := _divQ ltP atP 0 }

/-- Embedding of `beneish_score(r)`: the published M-Score linear
combination and the flag `m > -2.22`. -/
def beneish_score (r : FeatureVector) : ℚ × Bool :=
  let m : ℚ := -4.84 + 0.92 * r.DSRI + 0.528 * r.GMI + 0.404 * r.AQI
    + 0.892 * r.SGI + 0.115 * r.DEPI - 0.172 * r.SGAI + 4.679 * r.TATA
  let flag := decide (m > -2.22)
  (m, flag)

/-- Embedding of `piotroski_score(r)`: nine binary tests summed with
Python bool-to-int coercion, flag when the score is at most 3. -/
def piotroski_score (r : FeatureVector) : ℕ × Bool :=
  let roa_cur := r.ROA
  let roa_prev := r.Prev_ROA
  let cfo := r.CFO
  let accrual := decide (cfo > roa_cur)
  let gm_cur := r.GrossMargin
  let gm_prev := r.Prev_GM
  let at_cur := r.AssetTurn
  let at_prev := r.Prev_AT
  let lev_cur := r.leverage
  let lev_prev := r.Prev_leverage
  let cr_cur := r.CurrRatio
  let cr_prev := r.Prev_CR
  let share_change := decide (r.Shares ≤ r.Prev_Shares)
  let score : ℕ :=
    (if roa_cur > 0 then 1 else 0)
    + (if cfo > 0 then 1 else 0)
    + (if roa_cur - roa_prev > 0 then 1 else 0)
    + (if accrual then 1 else 0)
    + (if lev_cur < lev_prev then 1 else 0)
    + (if cr_cur > cr_prev then 1 else 0)
    + (if gm_cur - gm_prev > 0 then 1 else 0)
    + (if at_cur - at_prev > 0 then 1 else 0)
    + (if share_change then 1 else 0)
  let flag := decide (score ≤ 3)
  (score, flag)

/-- Method-specific extra payload of a scoring result: the Beneish branch
stores the float M-Score, the Piotroski branch the integer F-Score, each
with its boolean flag. -/
inductive Extra where
  | mscore (score : ℚ) (flag : Bool)
  | fscore (score : ℕ) (flag : Bool)
  deriving DecidableEq

/-- The dict returned by `predict`: `prob`, `shap`, `feats`, `extra`.
SHAP attribution values are opaque externals, modelled as a list of
rationals produced by a caller-supplied function. -/
structure ScoreResult where
  prob : Option ℚ
  shap : Option (List ℚ)
  feats : FeatureVector
  extra : Option Extra
  deriving DecidableEq

/-- Embedding of `predict(tkr, method)`, generic in its external
collaborators and in the ratio engine itself: `provider` models
`_two_years` (returning `none` when fewer than two fiscal years are
available), `model` the loaded classifier probability
`CB_MODEL.predict_proba(feats)[0, 1]`, `shapFn` the SHAP explainer, and
`ratioFn` the feature computation, so that theorems can quantify over an
arbitrary ratio engine to express that it is not invoked. `none` in the
result models Python `return None`; an unknown method raises
`ValueError`. -/
def predictGen (ratioFn : PeriodPair → Except PyErr FeatureVector)
    (model : FeatureVector → ℚ) (shapFn : FeatureVector → List ℚ)
    (provider : String → Option PeriodPair)
    (tkr : String) (method : String) : Except PyErr (Option ScoreResult) := do
  match provider tkr with
  | none => return none
  | some df2 =>
    let feats ← ratioFn df2
    if method = "CatBoost" then
      return some ⟨some (model feats), some (shapFn feats), feats, none⟩
    else if method = "Beneish M-Score" then
      let mf := beneish_score feats
      return some ⟨none, none, feats, some (.mscore mf.1 mf.2)⟩
    else if method = "Piotroski F-Score" then
      let ff := piotroski_score feats
      return some ⟨none, none, feats, some (.fscore ff.1 ff.2)⟩
    else
      throw (.valueError "Unknown method")

/-- The dispatcher as written in the source: `predictGen` instantiated
with the actual ratio engine `_ratios`. -/
def predict (model : FeatureVector → ℚ) (shapFn : FeatureVector → List ℚ)
    (provider : String → Option PeriodPair)
    (tkr : String) (method : String) : Except PyErr (Option ScoreResult) :=
  predictGen _ratios model shapFn provider tkr method

/-- Model of calling `predict` with the `method` argument omitted: the
Python signature `def predict(tkr, method="CatBoost")` fills in the
declared default string. -/
def predict_nomethod (model : FeatureVector → ℚ)
    (shapFn : FeatureVector → List ℚ) (provider : String → Option PeriodPair)
    (tkr : String) : Except PyErr (Option ScoreResult) :=
  predict model shapFn provider tkr "CatBoost"

/-- Convenience constructor: a period with every line item present except
`ebit` (the common case for the providers feeding `_ratios`). Argument
order: revenue, cost of revenue, receivables, current assets, PP&E,
total assets, depreciation, net income, total liabilities, current
liabilities, operating cash flow, shares outstanding. -/
def mkPeriod (rev cogs rect act ppe ta dp ni lt lct ocf shs : ℚ) :
    FinancialPeriod :=
  ⟨some rev, some cogs, some rect, some act, some ppe, some ta, some dp,
   some ni, some lt, some lct, some ocf, some shs, none⟩

/-- A pair whose current period reports zero revenue (and nonzero
receivables), as happens for pre-revenue listings. -/
def C1pair : PeriodPair :=
  ⟨mkPeriod 0 1 1 1 1 1 1 1 1 1 1 1, mkPeriod 1 1 1 1 1 1 1 1 1 1 1 1⟩

/-- The spec formula for the M-Score, written from the spec text for
comparison with the code. -/
def beneish_formula (r : FeatureVector) : ℚ :=
  -4.84 + 0.92 * r.DSRI + 0.528 * r.GMI + 0.404 * r.AQI + 0.892 * r.SGI
    + 0.115 * r.DEPI - 0.172 * r.SGAI + 4.679 * r.TATA

/-- The degenerate all-zero feature vector. -/
def zeroFV : FeatureVector :=
  ⟨0, 0, 0, 0, 0, 0, 0, 0, 0, 0, 0, 0, 0, 0, 0, 0, 0, 0, 0, 0, 0, 0, 0, 0, 0⟩

/-- The nine Piotroski tests of the spec, in order, written from the
spec text for comparison with the code. -/
def piotroski_checks (r : FeatureVector) : List Bool :=
  [decide (r.ROA > 0), decide (r.CFO > 0),
   decide (r.ROA - r.Prev_ROA > 0), decide (r.CFO > r.ROA),
   decide (r.leverage < r.Prev_leverage),
   decide (r.CurrRatio > r.Prev_CR),
   decide (r.GrossMargin - r.Prev_GM > 0),
   decide (r.AssetTurn - r.Prev_AT > 0),
   decide (r.Shares ≤ r.Prev_Shares)]

/-- The concrete two-year scenario of the spec's testable properties. -/
def csPair : PeriodPair :=
  ⟨mkPeriod 1000 600 100 300 200 800 50 120 400 150 140 1000,
   mkPeriod 900 550 80 280 210 750 45 100 380 140 110 1000⟩

/-- The feature vector the Ratio Engine produces on `csPair`, with every
field reduced by hand. -/
def csFV : FeatureVector :=
  ⟨9/8, 35/36, 225/208, 10/9, 15/17, 126/125, 75/76, 1/8,
   1/2, 3/20, 2, 3/20, 1/8,
   3/20, 2/15, 7/40, 2/5, 7/18, 5/4, 6/5, 2, 2, 1000, 1000, 38/75⟩

/-- The GMI entry as the spec words it: `div` applied to the
prior-period gross-margin ratio (numerator argument) and the
current-period gross-margin ratio (denominator argument). -/
def GMI_spec (pair : PeriodPair) : Except PyErr ℚ := do
  let saleC := item pair.cur.revenue
  let saleP := item pair.prior.revenue
  let cogsC := item pair.cur.costOfRevenue
  let cogsP := item pair.prior.costOfRevenue
  let priorMargin ← pyDiv (saleP - cogsP) saleP
  let curMargin ← pyDiv (saleC - cogsC) saleC
  return _divQ priorMargin curMargin 0

/-- The DEPI entry as the spec words it: `div` applied to the
prior-period depreciation rate (numerator argument) and the
current-period depreciation rate (denominator argument). -/
def DEPI_spec (pair : PeriodPair) : Except PyErr ℚ := do
  let dpC := item pair.cur.depreciationAndAmortization
  let dpP := item pair.prior.depreciationAndAmortization
  let ppeC := item pair.cur.propertyPlantEquipmentNet
  let ppeP := item pair.prior.propertyPlantEquipmentNet
  let priorRate ← pyDiv dpP (dpP + ppeP)
  let curRate ← pyDiv dpC (dpC + ppeC)
  return _divQ priorRate curRate 0

/-- On finite floats, `_div` computes exactly `_divQ`. -/
theorem _div_fin_eq_divQ (n d f : ℚ) :
    _div (.fin n) (.fin d) (.fin f) = .fin (_divQ n d f) := by
  by_cases h : d = 0 <;>
    simp [_div, _divQ, PyFloat.eqZero, PyFloat.isnan, pyDivF, h]

theorem ok_bind {ε α β : Type} (a : α) (f : α → Except ε β) :
    (Except.ok a : Except ε α) >>= f = f a := rfl

theorem error_bind {ε α β : Type} (e : ε) (f : α → Except ε β) :
    (Except.error e : Except ε α) >>= f = Except.error e := rfl

theorem bind_ok_inv {ε α β : Type} {x : Except ε α} {f : α → Except ε β}
    {b : β} (h : x >>= f = Except.ok b) :
    ∃ a, x = Except.ok a ∧ f a = Except.ok b := by
  cases x with
  | error e => simp [error_bind] at h
  | ok a => exact ⟨a, rfl, h⟩

theorem pyDiv_ok_inv {n d x : ℚ} (h : pyDiv n d = Except.ok x) :
    d ≠ 0 ∧ x = n / d := by
  by_cases hd : d = 0 <;> simp_all [pyDiv]

/-- C1 counterexample: on a PeriodPair whose current revenue is 0 the
Ratio Engine does not return a FeatureVector at all — the argument
expression `rectC / saleC` of the DSRI entry is evaluated before `_div`
is entered, and Python float division by zero raises, so `_ratios`
propagates `ZeroDivisionError` instead of exercising the `_div`
fallback. -/
theorem claim_C1_counterexample :
    _ratios C1pair = Except.error PyErr.zeroDivisionError := by
  simp [_ratios, C1pair, mkPeriod, item, pyDiv, ok_bind, error_bind]

theorem ratios_ok_iff (pair : PeriodPair) :
    (∃ fv, _ratios pair = Except.ok fv) ↔
      (item pair.cur.revenue ≠ 0 ∧ item pair.prior.revenue ≠ 0 ∧
       item pair.cur.totalAssets ≠ 0 ∧ item pair.prior.totalAssets ≠ 0 ∧
       item pair.prior.depreciationAndAmortization +
         item pair.prior.propertyPlantEquipmentNet ≠ 0 ∧
       item pair.cur.depreciationAndAmortization +
         item pair.cur.propertyPlantEquipmentNet ≠ 0) := by
  constructor
  · rintro ⟨fv, h⟩
    simp only [_ratios] at h
    obtain ⟨x1, hx1, h⟩ := bind_ok_inv h
    obtain ⟨hd1, -⟩ := pyDiv_ok_inv hx1
    obtain ⟨x2, hx2, h⟩ := bind_ok_inv h
    obtain ⟨hd2, -⟩ := pyDiv_ok_inv hx2
    obtain ⟨x3, hx3, h⟩ := bind_ok_inv h
    obtain ⟨x4, hx4, h⟩ := bind_ok_inv h
    obtain ⟨x5, hx5, h⟩ := bind_ok_inv h
    obtain ⟨hd5, -⟩ := pyDiv_ok_inv hx5
    obtain ⟨x6, hx6, h⟩ := bind_ok_inv h
    obtain ⟨hd6, -⟩ := pyDiv_ok_inv hx6
    obtain ⟨x7, hx7, h⟩ := bind_ok_inv h
    obtain ⟨hd7, -⟩ := pyDiv_ok_inv hx7
    obtain ⟨x8, hx8, h⟩ := bind_ok_inv h
    obtain ⟨hd8, -⟩ := pyDiv_ok_inv hx8
    exact ⟨hd1, hd2, hd5, hd6, hd7, hd8⟩
  · rintro ⟨h1, h2, h3, h4, h5, h6⟩
    simp [_ratios, pyDiv, h1, h2, h3, h4, h5, h6, ok_bind]

/-- C1 (amended): `_ratios` returns a FeatureVector (whose fields are
all finite — in this exact-rational model every produced field is a
rational number) exactly when the quantities divided by *inside* the
`_div` argument expressions are nonzero: current and prior revenue,
current and prior total assets, and each period's depreciation + PP&E
sum. When any of these six is zero, `_ratios` raises ZeroDivisionError
instead of falling back, contrary to the claim. -/
theorem claim_C1_amended (pair : PeriodPair) :
    (∃ fv, _ratios pair = Except.ok fv) ↔
      (item pair.cur.revenue ≠ 0 ∧ item pair.prior.revenue ≠ 0 ∧
       item pair.cur.totalAssets ≠ 0 ∧ item pair.prior.totalAssets ≠ 0 ∧
       item pair.prior.depreciationAndAmortization +
         item pair.prior.propertyPlantEquipmentNet ≠ 0 ∧
       item pair.cur.depreciationAndAmortization +
         item pair.cur.propertyPlantEquipmentNet ≠ 0) :=
  ratios_ok_iff pair

/-- C2 counterexample: for an infinite denominator `_div` does not
return the fallback — `inf == 0` and `np.isnan(inf)` are both false, so
the code divides and `1 / inf` is `0`, not the fallback `5`. -/
theorem claim_C2_counterexample :
    _div (PyFloat.fin 1) (PyFloat.inf true) (PyFloat.fin 5) = PyFloat.fin 0 ∧
    _div (PyFloat.fin 1) (PyFloat.inf true) (PyFloat.fin 5) ≠ PyFloat.fin 5 := by
  refine ⟨?_, ?_⟩ <;>
    norm_num [_div, pyDivF, PyFloat.eqZero, PyFloat.isnan]

/-- C2 (amended): `_div(n, d, f)` returns the fallback `f` exactly when
`d == 0` or `d` is NaN; for every other denominator — infinities
included — it returns the Python value of `n / d` (which for a finite
numerator over an infinite denominator is `0`, not `f`), and that
guarded division never raises, so the exception handler never produces
`f` on float operands. -/
theorem claim_C2_amended (n d f : PyFloat) :
    ((d.eqZero || d.isnan) = true → _div n d f = f) ∧
    ((d.eqZero || d.isnan) = false →
      ∃ v, pyDivF n d = Except.ok v ∧ _div n d f = v) ∧
    (∀ a s, _div (PyFloat.fin a) (PyFloat.inf s) f = PyFloat.fin 0) := by
  refine ⟨fun h => by simp [_div, h], fun h => ?_, fun a s => by
    simp [_div, pyDivF, PyFloat.eqZero, PyFloat.isnan]⟩
  cases d with
  | fin q =>
      have hq : ¬q = 0 := by
        simpa [PyFloat.eqZero, PyFloat.isnan] using h
      cases n <;> simp [_div, pyDivF, PyFloat.eqZero, PyFloat.isnan, hq]
  | inf s =>
      cases n <;> simp [_div, pyDivF, PyFloat.eqZero, PyFloat.isnan]
  | nan =>
      simp [PyFloat.isnan] at h

/-- C2 witness: concrete inputs exercising the fallback branch (zero
denominator) and the non-fallback infinite-denominator branch of the
amended statement. -/
theorem claim_C2_amended_witness :
    _div (PyFloat.fin 3) (PyFloat.fin 0) (PyFloat.fin 7) = PyFloat.fin 7 ∧
    _div (PyFloat.fin 3) (PyFloat.inf true) (PyFloat.fin 7) = PyFloat.fin 0 := by
  constructor
  · exact (claim_C2_amended (PyFloat.fin 3) (PyFloat.fin 0)
      (PyFloat.fin 7)).1 (by simp [PyFloat.eqZero])
  · exact (claim_C2_amended (PyFloat.fin 3) (PyFloat.inf true)
      (PyFloat.fin 7)).2.2 3 true

/-- C3: `beneish_score` computes exactly the published linear
combination, its flag holds iff the score exceeds -2.22, and on the
all-zero feature vector the score is the intercept -4.84 with the flag
off. -/
theorem claim_C3 (r : FeatureVector) :
    (beneish_score r).1 = beneish_formula r ∧
    ((beneish_score r).2 = true ↔ (beneish_score r).1 > -2.22) ∧
    (beneish_score zeroFV).1 = -4.84 ∧
    (beneish_score zeroFV).2 = false := by
  refine ⟨rfl, by simp [beneish_score], ?_, ?_⟩
  · norm_num [beneish_score, zeroFV]
  · norm_num [beneish_score, zeroFV]

/-- C4: the Piotroski score is the number of the nine spec tests that
hold, hence an integer between 0 and 9, and the flag holds iff the
score is at most 3. -/
theorem claim_C4 (r : FeatureVector) :
    (piotroski_score r).1 = (piotroski_checks r).count true ∧
    (piotroski_score r).1 ≤ 9 ∧
    ((piotroski_score r).2 = true ↔ (piotroski_score r).1 ≤ 3) := by
  have hcount :
      (piotroski_score r).1 = (piotroski_checks r).count true := by
    simp [piotroski_score, piotroski_checks, List.count_cons,
      decide_eq_true_eq, Nat.add_comm, Nat.add_assoc, Nat.add_left_comm]
  refine ⟨hcount, ?_, by simp [piotroski_score, decide_eq_true_eq]⟩
  rw [hcount]
  have hlen := List.count_le_length true (piotroski_checks r)
  simpa [piotroski_checks] using hlen

/-- C10: with the method argument omitted, `predict` behaves exactly as
`predict` called with the declared default method string "CatBoost"
(the classifier) — a default the spec interface does not mention. -/
theorem claim_C10 (model : FeatureVector → ℚ)
    (shapFn : FeatureVector → List ℚ)
    (provider : String → Option PeriodPair) (tkr : String) :
    predict_nomethod model shapFn provider tkr =
      predict model shapFn provider tkr "CatBoost" := rfl

theorem pure_eq {ε α : Type} (a : α) :
    (pure a : Except ε α) = Except.ok a := rfl

theorem throw_eq {ε α : Type} (e : ε) :
    (throw e : Except ε α) = Except.error e := rfl

/-- C5: if the statement provider yields fewer than two periods (`none`),
`predict` returns the no-data result `None` without raising, for *any*
ratio engine — i.e. the Ratio Engine is never invoked — and conversely
`None` is returned only in that case, so InsufficientHistory is the only
condition surfaced as a normal "no result". -/
theorem claim_C5 (ratioFn : PeriodPair → Except PyErr FeatureVector)
    (model : FeatureVector → ℚ) (shapFn : FeatureVector → List ℚ)
    (provider : String → Option PeriodPair) (tkr : String) (method : String) :
    (provider tkr = none →
      predictGen ratioFn model shapFn provider tkr method = Except.ok none) ∧
    (predict model shapFn provider tkr method = Except.ok none →
      provider tkr = none) := by
  constructor
  · intro h
    simp [predictGen, h, pure_eq]
  · intro h
    cases hp : provider tkr with
    | none => rfl
    | some pair =>
      exfalso
      simp only [predict, predictGen, hp] at h
      cases hr : _ratios pair with
      | error e => simp [hr, error_bind] at h
      | ok fv =>
        simp only [hr, ok_bind] at h
        split_ifs at h <;> simp_all [pure_eq, throw_eq]

/-- C5 witness: a provider with no data for the ticker yields the
no-data result through an arbitrary concrete ratio engine. -/
theorem claim_C5_witness :
    predictGen _ratios (fun _ => 0) (fun _ => []) (fun _ => none) "AAPL"
      "CatBoost" = Except.ok none :=
  (claim_C5 _ratios (fun _ => 0) (fun _ => []) (fun _ => none) "AAPL"
    "CatBoost").1 rfl

theorem ratios_csPair : _ratios csPair = Except.ok csFV := by
  norm_num [_ratios, csPair, csFV, mkPeriod, item, pyDiv, _divQ, ok_bind]

/-- C6: on the spec's concrete scenario the Ratio Engine yields
DSRI = (100/1000)/(80/900) = 9/8 = 1.125 and SGI = 1000/900 = 10/9, and
the Piotroski tests for positive ROA, positive CFO, ROA increase,
leverage decrease and unchanged shares (tests 1, 2, 3, 5, 9) all pass
(the full outcome list shows test 6 is the only failing one, so the
score is 8). -/
theorem claim_C6 :
    _ratios csPair = Except.ok csFV ∧
    csFV.DSRI = 9/8 ∧ csFV.SGI = 10/9 ∧
    piotroski_checks csFV =
      [true, true, true, true, true, false, true, true, true] ∧
    (piotroski_score csFV).1 = 8 := by
  refine ⟨ratios_csPair, rfl, rfl, ?_, ?_⟩
  · norm_num [piotroski_checks, csFV, decide_eq_true_eq,
      decide_eq_false_iff_not]
  · norm_num [piotroski_score, csFV]

/-- C7: whenever the Ratio Engine succeeds, its GMI and DEPI fields are
exactly the spec's prior-over-current orderings — the prior-period
ratio is the numerator argument and the current-period ratio the
denominator argument of the division, the reverse of the other
year-over-year indices. -/
theorem claim_C7 (pair : PeriodPair) (fv : FeatureVector)
    (h : _ratios pair = Except.ok fv) :
    GMI_spec pair = Except.ok fv.GMI ∧
    DEPI_spec pair = Except.ok fv.DEPI := by
  obtain ⟨h1, h2, h3, h4, h5, h6⟩ := (ratios_ok_iff pair).mp ⟨fv, h⟩
  simp [_ratios, pyDiv, h1, h2, h3, h4, h5, h6, ok_bind] at h
  constructor
  · rw [← h]
    simp [GMI_spec, pyDiv, h1, h2, ok_bind, pure_eq]
  · rw [← h]
    simp [DEPI_spec, pyDiv, h5, h6, ok_bind, pure_eq]

/-- C7 witness: the orderings evaluated on the concrete scenario pair. -/
theorem claim_C7_witness :
    GMI_spec csPair = Except.ok csFV.GMI ∧
    DEPI_spec csPair = Except.ok csFV.DEPI :=
  claim_C7 csPair csFV ratios_csPair

/-- C8: with sufficient history (and a feature computation that
succeeds), the classifier method populates exactly `prob` and `shap`
with `extra` absent, while the two rule methods leave `prob` and `shap`
absent and populate `extra` with their score and flag; the feature
vector is included in every case. -/
theorem claim_C8 (model : FeatureVector → ℚ) (shapFn : FeatureVector → List ℚ)
    (provider : String → Option PeriodPair) (tkr : String)
    (pair : PeriodPair) (fv : FeatureVector)
    (hp : provider tkr = some pair) (hr : _ratios pair = Except.ok fv) :
    predict model shapFn provider tkr "CatBoost" =
      Except.ok (some ⟨some (model fv), some (shapFn fv), fv, none⟩) ∧
    predict model shapFn provider tkr "Beneish M-Score" =
      Except.ok (some ⟨none, none, fv,
        some (Extra.mscore (beneish_score fv).1 (beneish_score fv).2)⟩) ∧
    predict model shapFn provider tkr "Piotroski F-Score" =
      Except.ok (some ⟨none, none, fv,
        some (Extra.fscore (piotroski_score fv).1 (piotroski_score fv).2)⟩) := by
  refine ⟨?_, ?_, ?_⟩ <;>
    simp [predict, predictGen, hp, hr, ok_bind, pure_eq]

/-- C8 witness: the three result shapes on the concrete scenario pair
with a concrete classifier and explainer. -/
theorem claim_C8_witness :
    predict (fun _ => (1:ℚ)/2) (fun _ => [(1:ℚ)]) (fun _ => some csPair)
        "AAPL" "CatBoost" =
      Except.ok (some ⟨some ((1:ℚ)/2), some [(1:ℚ)], csFV, none⟩) ∧
    predict (fun _ => (1:ℚ)/2) (fun _ => [(1:ℚ)]) (fun _ => some csPair)
        "AAPL" "Beneish M-Score" =
      Except.ok (some ⟨none, none, csFV,
        some (Extra.mscore (beneish_score csFV).1 (beneish_score csFV).2)⟩) ∧
    predict (fun _ => (1:ℚ)/2) (fun _ => [(1:ℚ)]) (fun _ => some csPair)
        "AAPL" "Piotroski F-Score" =
      Except.ok (some ⟨none, none, csFV,
        some (Extra.fscore (piotroski_score csFV).1
          (piotroski_score csFV).2)⟩) :=
  claim_C8 (fun _ => (1:ℚ)/2) (fun _ => [(1:ℚ)]) (fun _ => some csPair)
    "AAPL" csPair csFV rfl ratios_csPair

/-- C9: with sufficient history, any unrecognized method makes `predict`
raise (either the ValueError of the final dispatch branch, or — when the
feature computation itself raises — that earlier error): it never
returns a result and never falls back to a default method. -/
theorem claim_C9 (model : FeatureVector → ℚ) (shapFn : FeatureVector → List ℚ)
    (provider : String → Option PeriodPair) (tkr : String)
    (pair : PeriodPair) (method : String)
    (hp : provider tkr = some pair)
    (h1 : method ≠ "CatBoost") (h2 : method ≠ "Beneish M-Score")
    (h3 : method ≠ "Piotroski F-Score") :
    ∃ e, predict model shapFn provider tkr method = Except.error e := by
  cases hr : _ratios pair with
  | error e =>
      exact ⟨e, by simp [predict, predictGen, hp, hr, error_bind]⟩
  | ok fv =>
      exact ⟨PyErr.valueError "Unknown method",
        by simp [predict, predictGen, hp, hr, ok_bind, h1, h2, h3, throw_eq]⟩

/-- C9 witness: an unrecognized method string on a ticker with data. -/
theorem claim_C9_witness :
    ∃ e, predict (fun _ => 0) (fun _ => []) (fun _ => some csPair) "AAPL"
      "LSTM" = Except.error e :=
  claim_C9 (fun _ => 0) (fun _ => []) (fun _ => some csPair) "AAPL" csPair
    "LSTM" rfl (by decide) (by decide) (by decide)
